import Mathlib

/-!
# Verification of the `IOCContainer` dependency-injection core

A shallow embedding of `src/IOCContainer.ts` (an IOC container with a token
registry, a singleton instance cache, a scope-resolver table and a reference
validator), together with theorems settling the specified properties.

Modelling conventions:
- JavaScript `Map` objects become association lists with JS `Map` semantics:
  `set` updates an existing key in place (keeping insertion order) or appends,
  `get` returns an `Option`, `delete` removes the key, and iteration follows
  insertion order.
- Reference identity of constructors and of created objects is modelled by
  numeric identities: a constructor carries an `id`, and every invocation of a
  constructor allocates a fresh `allocId`, so two objects are "the identical
  instance" exactly when they are equal in the model.
- A JavaScript exception is a `JsError` carrying `name`, `message` and the
  optional ES2022 `cause` (flattened to the cause's name and message, which is
  enough here because `DependencyInjectionError` never attaches one).
- `new impl()` may throw; a constructor's behaviour is modelled by
  `throws : Option JsError`. Each invocation is logged (instrumentation used
  to state "the construction strategy is invoked exactly once").
- Thrown exceptions become the `Except.error` branch of the result; since the
  container keeps mutable static state, every operation also returns the
  updated state.
-/

namespace DI

/-- JS `Map` lookup (`Map.prototype.get`) over an association list. -/
def mapGet {α β : Type} [DecidableEq α] : List (α × β) → α → Option β
  | [], _ => none
  | (k2, v) :: rest, k => if k2 = k then some v else mapGet rest k

/-- JS `Map.prototype.has`. -/
def mapHas {α β : Type} [DecidableEq α] (m : List (α × β)) (k : α) : Bool :=
  (mapGet m k).isSome

/-- JS `Map.prototype.set`: update an existing key in place, else append. -/
def mapSet {α β : Type} [DecidableEq α] : List (α × β) → α → β → List (α × β)
  | [], k, v => [(k, v)]
  | (k2, v2) :: rest, k, v =>
    if k2 = k then (k, v) :: rest else (k2, v2) :: mapSet rest k v

/-- JS `Map.prototype.delete` (keys are unique in every reachable map state,
so removing every occurrence coincides with removing the entry). -/
def mapDelete {α β : Type} [DecidableEq α] (m : List (α × β)) (k : α) : List (α × β) :=
  m.filter (fun p => decide (p.1 ≠ k))

/-- The three lifecycles of `DependencyInjectionType` in `src/types.d.ts`. -/
inductive InjectionType : Type where
  | Singleton : InjectionType
  | Scoped : InjectionType
  | Transient : InjectionType
deriving DecidableEq, Repr

/-- A JS exception: `name`, `message`, and the optional `cause` flattened to
the cause's own name and message (no error in this codebase ever attaches a
cause, so one level is enough). -/
structure JsError : Type where
  name : String
  message : String
  cause : Option (String × String)
deriving DecidableEq, Repr

/-- `DependencyInjectionError` from `src/DependencyInjectionError.ts`: its
constructor takes only a message, sets `name`, and attaches no cause. -/
def DependencyInjectionError (message : String) : JsError :=
  ⟨"DependencyInjectionError", message, none⟩

/-- An object created by a constructor: which constructor made it, and a
fresh allocation identity (reference identity in the model). -/
structure Obj : Type where
  ctorId : Nat
  allocId : Nat
deriving DecidableEq, Repr

/-- A class constructor (`Constructor<T>`): identified by `id` (reference
identity of the function object), and `new c()` throws `e` when
`throws = some e`, else returns a fresh object. -/
structure Ctor : Type where
  id : Nat
  throws : Option JsError
deriving DecidableEq, Repr

/-- The `Dependency` record of `src/types.d.ts`. -/
structure Dependency : Type where
  injectionType : InjectionType
  implementation : Ctor
deriving DecidableEq, Repr

/-- An arbitrary JS value, as returned by a scope resolver callback. -/
inductive JsVal : Type where
  | null : JsVal
  | obj : Obj → JsVal
  | str : String → JsVal
  | num : Int → JsVal
deriving DecidableEq, Repr

/-- An `origin` value recorded by `addDependencyReference` (typed `any` in the
source). `named n` is a value whose `origin.constructor.name` is `n`;
`nullish` is `null`/`undefined` (or a constructor-less object), for which
accessing `origin.constructor.name` throws a `TypeError`. -/
inductive Origin : Type where
  | nullish : Origin
  | named : String → Origin
deriving DecidableEq, Repr

/-- Evaluating `origin.constructor.name` on an `Origin`. -/
def Origin.ctorName : Origin → Except JsError String
  | Origin.nullish =>
      Except.error ⟨"TypeError", "Cannot read properties of null (reading constructor)", none⟩
  | Origin.named n => Except.ok n

/-- Whether `origin.constructor.name` is accessible. -/
def Origin.isNamed : Origin → Bool
  | Origin.nullish => false
  | Origin.named _ => true

/-- The name an origin reports, with a default for the nullish case. -/
def Origin.nameD : Origin → String
  | Origin.nullish => ""
  | Origin.named n => n

/-- The static state of `IOCContainer`: its four maps, plus instrumentation
(`nextAlloc` for fresh object identities, `log` recording every constructor
invocation in order). -/
structure ContainerState : Type where
  implementations : List (String × Dependency)
  instances : List (Nat × Obj)
  scopes : List (Nat × (String → JsVal))
  dependencyReferences : List (String × Origin)
  nextAlloc : Nat
  log : List Nat

/-- The empty container state. -/
def emptyState : ContainerState :=
  ⟨[], [], [], [], 0, []⟩

/-- `new c()`: logs the invocation, and either throws or returns a fresh
object whose `allocId` is the current allocation counter. -/
def invoke (st : ContainerState) (c : Ctor) : Except JsError Obj × ContainerState :=
  let st2 := { st with log := st.log ++ [c.id], nextAlloc := st.nextAlloc + 1 }
  match c.throws with
  | some e => (Except.error e, st2)
  | none => (Except.ok ⟨c.id, st.nextAlloc⟩, st2)

/-- `IOCContainer.register`: rejects a token that is already registered, else
stores the `{injectionType, implementation}` record. -/
def register (st : ContainerState) (token : String) (injectionType : InjectionType)
    (implementation : Ctor) : Except JsError Unit × ContainerState :=
  if mapHas st.implementations token then
    (Except.error (DependencyInjectionError
      ("There already is a class named " ++ token ++ " registered.")), st)
  else
    (Except.ok (),
      { st with
          implementations := mapSet st.implementations token ⟨injectionType, implementation⟩ })

/-- `IOCContainer.resolve`: looks up the registration; throws when absent; for
a non-singleton lifecycle returns `new implementation()` directly; for a
singleton, creates and caches the instance on first resolution (wrapping a
creation failure), keying the cache by the implementation itself. -/
def resolve (st : ContainerState) (token : String) : Except JsError Obj × ContainerState :=
  match mapGet st.implementations token with
  | none =>
      (Except.error (DependencyInjectionError
        ("Class constructor for " ++ token ++
          " not found. Did you forget to add the @Singleton decorator to the class?")), st)
  | some injection =>
      if injection.injectionType ≠ InjectionType.Singleton then
        invoke st injection.implementation
      else
        match mapGet st.instances injection.implementation.id with
        | some inst => (Except.ok inst, st)
        | none =>
            match invoke st injection.implementation with
            | (Except.error e, st2) =>
                (Except.error (DependencyInjectionError
                  ("Failed to create an instance of " ++ token ++ ". " ++ e.message)), st2)
            | (Except.ok o, st2) =>
                (Except.ok o,
                  { st2 with
                      instances := mapSet st2.instances injection.implementation.id o })

/-- `IOCContainer.getInjectionType`: `implementations.get(token)?.injectionType ?? null`. -/
def getInjectionType (st : ContainerState) (token : String) : Option InjectionType :=
  (mapGet st.implementations token).map (fun d => d.injectionType)

/-- `IOCContainer.registerScope`: unconditionally associates the resolver
callback with the scope-owner handle. -/
def registerScope (st : ContainerState) (inst : Nat) (res : String → JsVal) : ContainerState :=
  { st with scopes := mapSet st.scopes inst res }

/-- `IOCContainer.resolveScope`: `resolve ? resolve(dependency) : null`. -/
def resolveScope (st : ContainerState) (inst : Nat) (dependency : String) : JsVal :=
  match mapGet st.scopes inst with
  | some res => res dependency
  | none => JsVal.null

/-- `IOCContainer.cleanScope`: deletes every listed scope-owner handle. -/
def cleanScope (st : ContainerState) (handles : List Nat) : ContainerState :=
  handles.foldl (fun s h => { s with scopes := mapDelete s.scopes h }) st

/-- `IOCContainer.addDependencyReference`: records the (token, origin) pair,
overwriting any prior origin for that token. -/
def addDependencyReference (st : ContainerState) (token : String) (origin : Origin) :
    ContainerState :=
  { st with dependencyReferences := mapSet st.dependencyReferences token origin }

/-- The "dependency is not registered" message built by `testDependencyReferences`. -/
def notRegisteredError (originName token : String) : String :=
  originName ++ ": The dependency " ++ token ++ " is not registered"

/-- The scope-crossing message built by `testDependencyReferences`. -/
def scopeCrossError (originName token : String) : String :=
  originName ++ ": The scoped dependency " ++ token ++
    " cannot be resolved from a non-scoped class"

/-- The loop of `IOCContainer.testDependencyReferences`, iterating the
recorded references in insertion order with the accumulated `valid` flag and
error list. Accessing `origin.constructor.name` can itself throw, which
aborts the whole call with that exception. -/
def testRefsGo (impls : List (String × Dependency)) :
    List (String × Origin) → Bool → List String → Except JsError (Bool × List String)
  | [], valid, errors => Except.ok (valid, errors)
  | (token, origin) :: rest, valid, errors =>
      match mapGet impls token with
      | none =>
          match origin.ctorName with
          | Except.error e => Except.error e
          | Except.ok n =>
              testRefsGo impls rest false (errors ++ [notRegisteredError n token])
      | some dependency =>
          if dependency.injectionType = InjectionType.Scoped then
            match origin.ctorName with
            | Except.error e => Except.error e
            | Except.ok n =>
                match mapGet impls n with
                | some originDependency =>
                    if originDependency.injectionType ≠ InjectionType.Scoped then
                      testRefsGo impls rest false (errors ++ [scopeCrossError n token])
                    else
                      testRefsGo impls rest valid errors
                | none => testRefsGo impls rest valid errors
          else
            testRefsGo impls rest valid errors

/-- `IOCContainer.testDependencyReferences`. -/
def testDependencyReferences (st : ContainerState) : Except JsError (Bool × List String) :=
  testRefsGo st.implementations st.dependencyReferences true []

/-- Spec-side description (written from the spec's words, for refinement):
the errors one recorded (token, origin) pair contributes. -/
def specPairErrors (impls : List (String × Dependency)) (p : String × Origin) : List String :=
  match mapGet impls p.1 with
  | none => [notRegisteredError p.2.nameD p.1]
  | some d =>
      if d.injectionType = InjectionType.Scoped then
        match mapGet impls p.2.nameD with
        | some od =>
            if od.injectionType ≠ InjectionType.Scoped then
              [scopeCrossError p.2.nameD p.1]
            else []
        | none => []
      else []

/-- Spec-side description: the errors contributed by all recorded pairs, in
recording order. -/
def specErrors (impls : List (String × Dependency)) : List (String × Origin) → List String
  | [] => []
  | p :: rest => specPairErrors impls p ++ specErrors impls rest

/-- Spec-side description of the `testReferences` result: the collected
errors, with `valid` true exactly when no error was collected. -/
def specTestReferences (st : ContainerState) : Bool × List String :=
  ((specErrors st.implementations st.dependencyReferences).isEmpty,
    specErrors st.implementations st.dependencyReferences)

/-- The `cause` carried by a failed resolution, `some c` when the call failed
with an error whose cause is `c`, `none` when the call succeeded. -/
def resolvedErrorCause (r : Except JsError Obj × ContainerState) :
    Option (Option (String × String)) :=
  match r.1 with
  | Except.error e => some e.cause
  | Except.ok _ => none

/-- A constructor that succeeds. -/
def exCtor : Ctor := ⟨1, none⟩

/-- A constructor that throws a `RangeError` with message `boom`. -/
def exCtorBad : Ctor := ⟨2, some ⟨"RangeError", "boom", none⟩⟩

/-- A state with one singleton registration. -/
def exSingletonSt : ContainerState :=
  { emptyState with
      implementations := [("Foo", ⟨InjectionType.Singleton, exCtor⟩)] }

/-- A state with one transient registration. -/
def exTransientSt : ContainerState :=
  { emptyState with
      implementations := [("Bar", ⟨InjectionType.Transient, exCtor⟩)] }

/-- A state with one scoped registration. -/
def exScopedSt : ContainerState :=
  { emptyState with
      implementations := [("Baz", ⟨InjectionType.Scoped, exCtor⟩)] }

/-- A state whose singleton construction strategy throws. -/
def exFailSt : ContainerState :=
  { emptyState with
      implementations := [("Foo", ⟨InjectionType.Singleton, exCtorBad⟩)] }

/-- A state whose transient construction strategy throws. -/
def exTransientFailSt : ContainerState :=
  { emptyState with
      implementations := [("Bar", ⟨InjectionType.Transient, exCtorBad⟩)] }

/-- A state where two distinct tokens alias the same singleton implementation. -/
def exAliasSt : ContainerState :=
  { emptyState with
      implementations :=
        [("A", ⟨InjectionType.Singleton, exCtor⟩),
         ("B", ⟨InjectionType.Singleton, exCtor⟩)] }

/-- A state exercising every branch of the reference validator: an
unregistered token, a scoped dependency referenced from a transient origin, a
scoped dependency referenced from a scoped origin, a scoped dependency whose
origin is unregistered, and a non-scoped dependency. -/
def exRefsSt : ContainerState :=
  { emptyState with
      implementations :=
        [("Sc1", ⟨InjectionType.Scoped, ⟨3, none⟩⟩),
         ("Sc2", ⟨InjectionType.Scoped, ⟨5, none⟩⟩),
         ("Sc3", ⟨InjectionType.Scoped, ⟨6, none⟩⟩),
         ("Tr", ⟨InjectionType.Transient, ⟨4, none⟩⟩)],
      dependencyReferences :=
        [("Ghost", Origin.named "Tr"),
         ("Sc1", Origin.named "Tr"),
         ("Sc2", Origin.named "Sc1"),
         ("Sc3", Origin.named "Nobody"),
         ("Tr", Origin.named "Sc1")] }

/-- A state holding a recorded reference whose origin is `null`. -/
def exNullRefSt : ContainerState :=
  { emptyState with
      dependencyReferences := [("Ghost", Origin.nullish)] }

/-! ## Map lemmas -/

theorem mapGet_mapSet_self {α β : Type} [DecidableEq α] (m : List (α × β)) (k : α) (v : β) :
    mapGet (mapSet m k v) k = some v := by
  induction m with
  | nil => simp [mapSet, mapGet]
  | cons p rest ih =>
    obtain ⟨k2, v2⟩ := p
    by_cases h : k2 = k
    · simp [mapSet, mapGet, h]
    · simp [mapSet, mapGet, h, ih]

theorem mapGet_mapSet_ne {α β : Type} [DecidableEq α] (m : List (α × β)) (k j : α) (v : β)
    (h : j ≠ k) : mapGet (mapSet m k v) j = mapGet m j := by
  have hk : ¬(k = j) := fun hh => h hh.symm
  induction m with
  | nil => simp [mapSet, mapGet, hk]
  | cons p rest ih =>
    obtain ⟨k2, v2⟩ := p
    by_cases h2 : k2 = k
    · subst h2
      simp [mapSet, mapGet, hk]
    · simp [mapSet, mapGet, h2, ih]

theorem mapGet_mapDelete_self {α β : Type} [DecidableEq α] (m : List (α × β)) (k : α) :
    mapGet (mapDelete m k) k = none := by
  induction m with
  | nil => simp [mapDelete, mapGet]
  | cons p rest ih =>
    obtain ⟨k2, v2⟩ := p
    by_cases h : k2 = k
    · simpa [mapDelete, h] using ih
    · simpa [mapDelete, mapGet, h] using ih

/-- The validator loop, on references whose origins all expose a constructor
name, returns the accumulated errors followed by the spec-described errors of
the remaining pairs, with `valid` cleared exactly when an error exists. -/
theorem testRefsGo_eq (impls : List (String × Dependency)) (refs : List (String × Origin))
    (h : ∀ p ∈ refs, p.2.isNamed = true) (valid : Bool) (errors : List String) :
    testRefsGo impls refs valid errors =
      Except.ok (valid && (specErrors impls refs).isEmpty, errors ++ specErrors impls refs) := by
  induction refs generalizing valid errors with
  | nil => simp [testRefsGo, specErrors]
  | cons p rest ih =>
    obtain ⟨token, origin⟩ := p
    have hnamed : origin.isNamed = true := h (token, origin) (List.mem_cons_self _ _)
    have hrest : ∀ q ∈ rest, q.2.isNamed = true := fun q hq => h q (List.mem_cons_of_mem _ hq)
    cases origin with
    | nullish => simp [Origin.isNamed] at hnamed
    | named n =>
      cases himp : mapGet impls token with
      | none =>
        simp [testRefsGo, specErrors, specPairErrors, himp, Origin.ctorName, Origin.nameD,
          ih hrest, List.append_assoc]
      | some d =>
        by_cases hd : d.injectionType = InjectionType.Scoped
        · cases horig : mapGet impls n with
          | none =>
            simp [testRefsGo, specErrors, specPairErrors, himp, hd, horig,
              Origin.ctorName, Origin.nameD, ih hrest]
          | some od =>
            by_cases hod : od.injectionType = InjectionType.Scoped
            · simp [testRefsGo, specErrors, specPairErrors, himp, hd, horig, hod,
                Origin.ctorName, Origin.nameD, ih hrest]
            · simp [testRefsGo, specErrors, specPairErrors, himp, hd, horig, hod,
                Origin.ctorName, Origin.nameD, ih hrest, List.append_assoc]
        · simp [testRefsGo, specErrors, specPairErrors, himp, hd, ih hrest]

/-! ## Claim theorems -/

/-- Claim C2: `register` fails with the duplicate-registration error whenever
the token is already present, leaving the registry unchanged so that the
original registration still resolves identically; on a fresh token it
succeeds and stores the registration. -/
theorem register_duplicate_rejected (st : ContainerState) (token : String)
    (it : InjectionType) (c : Ctor) :
    (mapHas st.implementations token = true →
      register st token it c =
        (Except.error (DependencyInjectionError
          ("There already is a class named " ++ token ++ " registered.")), st) ∧
      resolve (register st token it c).2 token = resolve st token) ∧
    (mapHas st.implementations token = false →
      (register st token it c).1 = Except.ok () ∧
      mapGet (register st token it c).2.implementations token = some ⟨it, c⟩) := by
  constructor
  · intro h
    constructor
    · simp [register, h]
    · simp [register, h]
  · intro h
    constructor
    · simp [register, h]
    · simp [register, h, mapGet_mapSet_self]

/-- Witness for C2 at concrete states: the duplicate branch on a registry
holding `Foo`, and the success branch on the empty registry. -/
theorem register_duplicate_rejected_witness :
    register exSingletonSt "Foo" InjectionType.Transient exCtorBad =
      (Except.error (DependencyInjectionError
        ("There already is a class named " ++ "Foo" ++ " registered.")), exSingletonSt) ∧
    resolve (register exSingletonSt "Foo" InjectionType.Transient exCtorBad).2 "Foo" =
      resolve exSingletonSt "Foo" ∧
    (register emptyState "Foo" InjectionType.Singleton exCtor).1 = Except.ok () ∧
    mapGet (register emptyState "Foo" InjectionType.Singleton exCtor).2.implementations "Foo" =
      some ⟨InjectionType.Singleton, exCtor⟩ := by
  have h1 := (register_duplicate_rejected exSingletonSt "Foo" InjectionType.Transient
    exCtorBad).1 (by decide)
  have h2 := (register_duplicate_rejected emptyState "Foo" InjectionType.Singleton
    exCtor).2 (by decide)
  exact ⟨h1.1, h1.2, h2.1, h2.2⟩

/-- Claim C4: resolving a token with no registration fails with the
`DependencyInjectionError` that names the token and hints at the missing
registration step (the decorator), leaving the state untouched, while
`getInjectionType` returns the not-registered sentinel without failing. -/
theorem unregistered_resolution (st : ContainerState) (token : String)
    (h : mapGet st.implementations token = none) :
    resolve st token = (Except.error (DependencyInjectionError
      ("Class constructor for " ++ token ++
        " not found. Did you forget to add the @Singleton decorator to the class?")), st) ∧
    getInjectionType st token = none := by
  constructor
  · simp [resolve, h]
  · simp [getInjectionType, h]

/-- Witness for C4 on the empty registry and the token `Ghost`. -/
theorem unregistered_resolution_witness :
    resolve emptyState "Ghost" = (Except.error (DependencyInjectionError
      ("Class constructor for " ++ "Ghost" ++
        " not found. Did you forget to add the @Singleton decorator to the class?")), emptyState) ∧
    getInjectionType emptyState "Ghost" = none :=
  unregistered_resolution emptyState "Ghost" rfl

/-- Claim C7: the resolver registered for scope owner `a` — and never the one
registered for a distinct owner `b` — answers `resolveScope` for `a`, and its
result is returned verbatim; an owner with no registered callback gets the
null sentinel without failing; and after `cleanScope [a]` the owner `a` gets
the null sentinel again. -/
theorem scope_isolation (st : ContainerState) (a b : Nat) (ra rb : String → JsVal)
    (hab : a ≠ b) (token : String) :
    resolveScope (registerScope (registerScope st a ra) b rb) a token = ra token ∧
    (mapGet st.scopes a = none → resolveScope st a token = JsVal.null) ∧
    resolveScope (cleanScope (registerScope (registerScope st a ra) b rb) [a]) a token =
      JsVal.null := by
  refine ⟨?_, ?_, ?_⟩
  · simp [resolveScope, registerScope, mapGet_mapSet_ne _ b a rb hab, mapGet_mapSet_self]
  · intro h
    simp [resolveScope, h]
  · simp [resolveScope, cleanScope, registerScope, List.foldl, mapGet_mapDelete_self]

/-- Witness for C7 with owners `0` and `1` and two concrete callbacks. -/
theorem scope_isolation_witness :
    resolveScope (registerScope (registerScope emptyState 0 (fun _ => JsVal.num 1)) 1
      (fun _ => JsVal.num 2)) 0 "X" = JsVal.num 1 ∧
    resolveScope emptyState 0 "X" = JsVal.null ∧
    resolveScope (cleanScope (registerScope (registerScope emptyState 0
      (fun _ => JsVal.num 1)) 1 (fun _ => JsVal.num 2)) [0]) 0 "X" = JsVal.null := by
  have h := scope_isolation emptyState 0 1 (fun _ => JsVal.num 1) (fun _ => JsVal.num 2)
    (by decide) "X"
  exact ⟨h.1, h.2.1 rfl, h.2.2⟩

/-- Claim C10: when a transient or scoped construction strategy throws,
`resolve` propagates that exact error to the caller — it is not wrapped in the
instance-creation-failure error — and none of the container's four maps is
modified by the failed call. -/
theorem transient_failure_propagates (st : ContainerState) (token : String)
    (it : InjectionType) (c : Ctor) (e : JsError)
    (hreg : mapGet st.implementations token = some ⟨it, c⟩)
    (hns : it ≠ InjectionType.Singleton)
    (hthrows : c.throws = some e) :
    (resolve st token).1 = Except.error e ∧
    (resolve st token).2.implementations = st.implementations ∧
    (resolve st token).2.instances = st.instances ∧
    (resolve st token).2.scopes = st.scopes ∧
    (resolve st token).2.dependencyReferences = st.dependencyReferences := by
  have hres : resolve st token =
      (Except.error e, { st with log := st.log ++ [c.id], nextAlloc := st.nextAlloc + 1 }) := by
    simp [resolve, invoke, hreg, hns, hthrows]
  rw [hres]
  exact ⟨rfl, rfl, rfl, rfl, rfl⟩

/-- Witness for C10: a transient registration whose constructor throws
`RangeError boom`; `resolve` surfaces that very error, unwrapped. -/
theorem transient_failure_propagates_witness :
    (resolve exTransientFailSt "Bar").1 = Except.error ⟨"RangeError", "boom", none⟩ ∧
    (resolve exTransientFailSt "Bar").2.implementations = exTransientFailSt.implementations ∧
    (resolve exTransientFailSt "Bar").2.instances = exTransientFailSt.instances ∧
    (resolve exTransientFailSt "Bar").2.scopes = exTransientFailSt.scopes ∧
    (resolve exTransientFailSt "Bar").2.dependencyReferences =
      exTransientFailSt.dependencyReferences :=
  transient_failure_propagates exTransientFailSt "Bar" InjectionType.Transient exCtorBad
    ⟨"RangeError", "boom", none⟩ rfl (by decide) rfl

/-- Claim C1: for a token registered Singleton with no cached instance yet,
two sequential `resolve` calls return the identical instance, the
construction strategy runs exactly once — at the first `resolve` — and
registration itself never invokes any construction strategy. -/
theorem singleton_identity_lazy (st : ContainerState) (token : String) (c : Ctor)
    (hreg : mapGet st.implementations token = some ⟨InjectionType.Singleton, c⟩)
    (hok : c.throws = none)
    (hfresh : mapGet st.instances c.id = none) :
    (resolve st token).1 = Except.ok ⟨c.id, st.nextAlloc⟩ ∧
    (resolve (resolve st token).2 token).1 = Except.ok ⟨c.id, st.nextAlloc⟩ ∧
    (resolve st token).2.log = st.log ++ [c.id] ∧
    (resolve (resolve st token).2 token).2.log = st.log ++ [c.id] ∧
    (∀ (s : ContainerState) (t2 : String) (it2 : InjectionType) (c2 : Ctor),
      ((register s t2 it2 c2).2).log = s.log) := by
  have hres : resolve st token =
      (Except.ok ⟨c.id, st.nextAlloc⟩,
        { st with
            instances := mapSet st.instances c.id ⟨c.id, st.nextAlloc⟩,
            log := st.log ++ [c.id],
            nextAlloc := st.nextAlloc + 1 }) := by
    simp [resolve, invoke, hreg, hfresh, hok]
  have hres2 : resolve (resolve st token).2 token =
      (Except.ok ⟨c.id, st.nextAlloc⟩, (resolve st token).2) := by
    rw [hres]
    simp [resolve, hreg, mapGet_mapSet_self]
  refine ⟨?_, ?_, ?_, ?_, ?_⟩
  · rw [hres]
  · rw [hres2, hres]
  · rw [hres]
  · rw [hres2, hres]
  · intro s t2 it2 c2
    by_cases hdup : mapHas s.implementations t2 <;> simp [register, hdup]

/-- Witness for C1: one singleton registration on a fresh container; both
resolutions return the object allocated at counter 0 by constructor 1, and
the invocation log stays at a single entry. -/
theorem singleton_identity_lazy_witness :
    (resolve exSingletonSt "Foo").1 = Except.ok ⟨1, 0⟩ ∧
    (resolve (resolve exSingletonSt "Foo").2 "Foo").1 = Except.ok ⟨1, 0⟩ ∧
    (resolve exSingletonSt "Foo").2.log = [1] ∧
    (resolve (resolve exSingletonSt "Foo").2 "Foo").2.log = [1] := by
  have h := singleton_identity_lazy exSingletonSt "Foo" exCtor rfl rfl rfl
  exact ⟨h.1, h.2.1, h.2.2.1, h.2.2.2.1⟩

/-- Claim C3: for a token registered Transient or Scoped, `resolve` behaves as
a bare invocation of the construction strategy — identically for the two
lifecycles — so each call invokes the strategy and returns a brand-new
instance, two sequential calls return distinct instances, and the instance
cache is never touched. -/
theorem transient_scoped_freshness (st : ContainerState) (token : String)
    (it : InjectionType) (c : Ctor)
    (hreg : mapGet st.implementations token = some ⟨it, c⟩)
    (hns : it ≠ InjectionType.Singleton)
    (hok : c.throws = none) :
    resolve st token = invoke st c ∧
    (resolve st token).1 = Except.ok ⟨c.id, st.nextAlloc⟩ ∧
    (resolve (resolve st token).2 token).1 = Except.ok ⟨c.id, st.nextAlloc + 1⟩ ∧
    ((⟨c.id, st.nextAlloc⟩ : Obj) ≠ ⟨c.id, st.nextAlloc + 1⟩) ∧
    (resolve st token).2.instances = st.instances ∧
    (resolve st token).2.log = st.log ++ [c.id] ∧
    (resolve (resolve st token).2 token).2.log = (st.log ++ [c.id]) ++ [c.id] := by
  have hres : resolve st token =
      (Except.ok ⟨c.id, st.nextAlloc⟩,
        { st with log := st.log ++ [c.id], nextAlloc := st.nextAlloc + 1 }) := by
    simp [resolve, invoke, hreg, hns, hok]
  refine ⟨?_, ?_, ?_, ?_, ?_, ?_, ?_⟩
  · simp [resolve, hreg, hns]
  · rw [hres]
  · rw [hres]
    simp [resolve, invoke, hreg, hns, hok]
  · simp
  · rw [hres]
  · rw [hres]
  · rw [hres]
    simp [resolve, invoke, hreg, hns, hok]

/-- Witness for C3: a transient registration resolved twice yields the
distinct objects allocated at counters 0 and 1, and a scoped registration
resolves exactly as a bare constructor invocation. -/
theorem transient_scoped_freshness_witness :
    (resolve exTransientSt "Bar").1 = Except.ok ⟨1, 0⟩ ∧
    (resolve (resolve exTransientSt "Bar").2 "Bar").1 = Except.ok ⟨1, 1⟩ ∧
    ((⟨1, 0⟩ : Obj) ≠ ⟨1, 1⟩) ∧
    (resolve exTransientSt "Bar").2.instances = exTransientSt.instances ∧
    resolve exScopedSt "Baz" = invoke exScopedSt exCtor := by
  have h := transient_scoped_freshness exTransientSt "Bar" InjectionType.Transient exCtor
    rfl (by decide) rfl
  have h2 := transient_scoped_freshness exScopedSt "Baz" InjectionType.Scoped exCtor
    rfl (by decide) rfl
  exact ⟨h.2.1, h.2.2.1, h.2.2.2.1, h.2.2.2.2.1, h2.1⟩

/-- Claim C5 (amended): when a singleton's construction strategy throws on
first resolution, `resolve` fails with a `DependencyInjectionError` naming
the failing token and appending the original error's message text; no
instance is cached. The original failure is kept only as text — it is not
attached as the error's cause. -/
theorem singleton_creation_failure_wraps_text (st : ContainerState) (token : String)
    (c : Ctor) (e : JsError)
    (hreg : mapGet st.implementations token = some ⟨InjectionType.Singleton, c⟩)
    (hthrows : c.throws = some e)
    (hfresh : mapGet st.instances c.id = none) :
    (resolve st token).1 = Except.error
      ⟨"DependencyInjectionError",
        "Failed to create an instance of " ++ token ++ ". " ++ e.message, none⟩ ∧
    (resolve st token).2.instances = st.instances := by
  have hres : resolve st token =
      (Except.error ⟨"DependencyInjectionError",
          "Failed to create an instance of " ++ token ++ ". " ++ e.message, none⟩,
        { st with log := st.log ++ [c.id], nextAlloc := st.nextAlloc + 1 }) := by
    simp [resolve, invoke, hreg, hfresh, hthrows, DependencyInjectionError]
  rw [hres]
  exact ⟨rfl, rfl⟩

/-- Counterexample for C5 as stated: the singleton constructor of `Foo`
throws `RangeError boom`; `resolve` fails with a wrapper that carries only
the original message text and attaches no cause, so the original failure is
not preserved as the cause. -/
theorem singleton_creation_failure_cex :
    exCtorBad.throws = some ⟨"RangeError", "boom", none⟩ ∧
    (resolve exFailSt "Foo").1 = Except.error
      ⟨"DependencyInjectionError", "Failed to create an instance of Foo. boom", none⟩ ∧
    resolvedErrorCause (resolve exFailSt "Foo") = some none := by
  exact ⟨rfl, rfl, rfl⟩

/-- Witness for C5 (amended) at the same concrete state. -/
theorem singleton_creation_failure_wraps_text_witness :
    (resolve exFailSt "Foo").1 = Except.error
      ⟨"DependencyInjectionError",
        "Failed to create an instance of " ++ "Foo" ++ ". " ++ "boom", none⟩ ∧
    (resolve exFailSt "Foo").2.instances = exFailSt.instances :=
  singleton_creation_failure_wraps_text exFailSt "Foo" exCtorBad
    ⟨"RangeError", "boom", none⟩ rfl rfl rfl

/-- Claim C8: the singleton cache is keyed by construction-strategy identity,
so two distinct tokens registered Singleton with the identical strategy share
one cache slot: resolving one and then the other returns the identical
instance, with the strategy invoked only once across both tokens. -/
theorem shared_cache_slot (st : ContainerState) (t1 t2 : String) (c : Ctor)
    (hne : t1 ≠ t2)
    (h1 : mapGet st.implementations t1 = some ⟨InjectionType.Singleton, c⟩)
    (h2 : mapGet st.implementations t2 = some ⟨InjectionType.Singleton, c⟩)
    (hok : c.throws = none)
    (hfresh : mapGet st.instances c.id = none) :
    (resolve st t1).1 = Except.ok ⟨c.id, st.nextAlloc⟩ ∧
    (resolve (resolve st t1).2 t2).1 = Except.ok ⟨c.id, st.nextAlloc⟩ ∧
    (resolve st t1).2.log = st.log ++ [c.id] ∧
    (resolve (resolve st t1).2 t2).2.log = st.log ++ [c.id] := by
  have hres : resolve st t1 =
      (Except.ok ⟨c.id, st.nextAlloc⟩,
        { st with
            instances := mapSet st.instances c.id ⟨c.id, st.nextAlloc⟩,
            log := st.log ++ [c.id],
            nextAlloc := st.nextAlloc + 1 }) := by
    simp [resolve, invoke, h1, hfresh, hok]
  have hres2 : resolve (resolve st t1).2 t2 =
      (Except.ok ⟨c.id, st.nextAlloc⟩, (resolve st t1).2) := by
    rw [hres]
    simp [resolve, h2, mapGet_mapSet_self]
  refine ⟨?_, ?_, ?_, ?_⟩
  · rw [hres]
  · rw [hres2, hres]
  · rw [hres]
  · rw [hres2, hres]

/-- Witness for C8: tokens `A` and `B` alias the same implementation; both
resolve to the object allocated at counter 0, after a single invocation. -/
theorem shared_cache_slot_witness :
    (resolve exAliasSt "A").1 = Except.ok ⟨1, 0⟩ ∧
    (resolve (resolve exAliasSt "A").2 "B").1 = Except.ok ⟨1, 0⟩ ∧
    (resolve exAliasSt "A").2.log = [1] ∧
    (resolve (resolve exAliasSt "A").2 "B").2.log = [1] := by
  have h := shared_cache_slot exAliasSt "A" "B" exCtor (by decide) rfl rfl rfl rfl
  exact ⟨h.1, h.2.1, h.2.2.1, h.2.2.2⟩

/-- Claim C6: on references whose origins expose a constructor name, the
validator's result is exactly the spec-described per-pair computation —
missing registrations and scope crossings append their errors in recording
order, origins without a registration skip the scope-crossing check, benign
pairs contribute nothing — and `valid` is true exactly when no error was
collected. -/
theorem testReferences_algorithm (st : ContainerState)
    (h : ∀ p ∈ st.dependencyReferences, p.2.isNamed = true) :
    testDependencyReferences st = Except.ok (specTestReferences st) ∧
    ((specTestReferences st).1 = true ↔ (specTestReferences st).2 = []) := by
  constructor
  · have hh := testRefsGo_eq st.implementations st.dependencyReferences h true []
    simpa [testDependencyReferences, specTestReferences] using hh
  · simp [specTestReferences, List.isEmpty_iff]

/-- Witness for C6: a registry and reference table exercising all validator
branches; the result flags the unregistered token and the scope crossing, in
recording order. -/
theorem testReferences_algorithm_witness :
    testDependencyReferences exRefsSt = Except.ok (specTestReferences exRefsSt) ∧
    specTestReferences exRefsSt =
      (false, [notRegisteredError "Tr" "Ghost", scopeCrossError "Tr" "Sc1"]) := by
  have h := testReferences_algorithm exRefsSt (by decide)
  exact ⟨h.1, rfl⟩

/-- Claim C9 (amended): the validator never raises provided every recorded
origin exposes a constructor name (it is not null/undefined or
constructor-less); all findings surface through the returned result. -/
theorem testReferences_total (st : ContainerState)
    (h : ∀ p ∈ st.dependencyReferences, p.2.isNamed = true) :
    ∃ r : Bool × List String, testDependencyReferences st = Except.ok r :=
  ⟨_, testRefsGo_eq st.implementations st.dependencyReferences h true []⟩

/-- Counterexample for C9 as stated: with a recorded reference whose origin
is `null`, the validator itself raises a `TypeError` while building its
report instead of returning a result. -/
theorem testReferences_raises_cex :
    testDependencyReferences exNullRefSt =
      Except.error ⟨"TypeError", "Cannot read properties of null (reading constructor)", none⟩ :=
  rfl

/-- Witness for C9 (amended) at the all-named reference table. -/
theorem testReferences_total_witness :
    ∃ r : Bool × List String, testDependencyReferences exRefsSt = Except.ok r :=
  testReferences_total exRefsSt (by decide)

end DI
